import Mathlib

/-!  Shallow embedding of the resilient remote-agent invocation client of
`custom_agent_client.py` and the batch workflow driver of `main.py`,
together with theorems checking the stated properties of these components.

Python exception messages are modelled by short fixed tags; an
`Except.error` value everywhere models a Python exception escaping the
translated code. -/

set_option autoImplicit false

namespace A2A

/-- JSON-like values as produced by parsing a response body.  Numbers are
modelled as integers (no checked property involves fractional values). -/
inductive JValue where
  | null : JValue
  | bool : Bool → JValue
  | num : Int → JValue
  | str : String → JValue
  | arr : List JValue → JValue
  | obj : List (String × JValue) → JValue

/-- The Python type name of a value, as it appears in TypeError messages. -/
def pyTypeName : JValue → String
  | .null => "NoneType"
  | .bool _ => "bool"
  | .num _ => "int"
  | .str _ => "str"
  | .arr _ => "list"
  | .obj _ => "dict"

/-- Comma-separated join used by the repr of lists and dicts. -/
def joinComma : List String → String
  | [] => ""
  | [x] => x
  | x :: xs => x ++ ", " ++ joinComma xs

mutual
/-- Python repr of a JSON value (string escape sequences are not modelled;
keys and strings are wrapped in single quotes as Python does). -/
def pyRepr : JValue → String
  | .null => "None"
  | .bool true => "True"
  | .bool false => "False"
  | .num n => toString n
  | .str s => "\x27" ++ s ++ "\x27"
  | .arr xs => "[" ++ joinComma (pyReprList xs) ++ "]"
  | .obj fs => "\x7b" ++ joinComma (pyReprFields fs) ++ "\x7d"

def pyReprList : List JValue → List String
  | [] => []
  | x :: xs => pyRepr x :: pyReprList xs

def pyReprFields : List (String × JValue) → List String
  | [] => []
  | (k, v) :: fs => ("\x27" ++ k ++ "\x27: " ++ pyRepr v) :: pyReprFields fs
end

/-- Python str() of a parsed JSON value: a string is returned as itself,
everything else through its repr. -/
def pyStr : JValue → String
  | .str s => s
  | v => pyRepr v

/-- Dictionary key lookup: Python d[k] on a present key, and the k in d
test via isSome. -/
def lookupKey (k : String) : List (String × JValue) → Option JValue
  | [] => none
  | (k2, v) :: fs => if k2 = k then some v else lookupKey k fs

/-- Python len(); raises TypeError on values with no length. -/
def pyLen : JValue → Except String Nat
  | .arr xs => .ok xs.length
  | .str s => .ok s.length
  | .obj fs => .ok fs.length
  | v => .error ("TypeError: object of type " ++ pyTypeName v ++ " has no len")

/-- Python v[0]. -/
def pyIndex0 : JValue → Except String JValue
  | .arr (x :: _) => .ok x
  | .arr [] => .error "IndexError: list index out of range"
  | .str s =>
    match s.data with
    | [] => .error "IndexError: string index out of range"
    | c :: _ => .ok (.str (String.mk [c]))
  | .obj _ => .error "KeyError: 0"
  | v => .error ("TypeError: " ++ pyTypeName v ++ " object is not subscriptable")

/-- Substring test used by the Python in operator on strings. -/
def strContains (hay needle : String) : Bool :=
  (List.range (hay.length + 1)).any (fun i => needle.data.isPrefixOf (hay.data.drop i))

/-- Python k in v: key test on dicts, substring test on strings, membership
on lists; TypeError otherwise. -/
def pyInStr (k : String) : JValue → Except String Bool
  | .obj fs => .ok (lookupKey k fs).isSome
  | .str s => .ok (strContains s k)
  | .arr xs => .ok (xs.any (fun v => match v with | .str s => s == k | _ => false))
  | v => .error ("TypeError: argument of type " ++ pyTypeName v ++ " is not iterable")

/-- Python v[k] with a string key. -/
def pySubscript (v : JValue) (k : String) : Except String JValue :=
  match v with
  | .obj fs =>
    match lookupKey k fs with
    | some w => .ok w
    | none => .error ("KeyError: " ++ k)
  | .str _ => .error "TypeError: string indices must be integers"
  | .arr _ => .error "TypeError: list indices must be integers"
  | v2 => .error ("TypeError: " ++ pyTypeName v2 ++ " object is not subscriptable")

/-- The result.message / result.response / result.content fallbacks inside
the JSON-RPC result block (custom_agent_client.py lines 159-165). -/
def rpcResultFieldRules (rf : List (String × JValue)) : Option String :=
  match lookupKey "message" rf with
  | some v => some (pyStr v)
  | none =>
    match lookupKey "response" rf with
    | some v => some (pyStr v)
    | none =>
      match lookupKey "content" rf with
      | some v => some (pyStr v)
      | none => none

/-- JSON-RPC success-envelope rules (lines 150-167); none means the block
falls through to the later rules. -/
def rpcResultRules (rd : List (String × JValue)) : Option String :=
  match lookupKey "jsonrpc" rd, lookupKey "result" rd with
  | some _, some (.obj rf) =>
    (match lookupKey "parts" rf with
     | some (.arr (first :: _)) =>
       (match first with
        | .obj pf =>
          (match lookupKey "text" pf with
           | some t => some (pyStr t)
           | none => rpcResultFieldRules rf)
        | _ => rpcResultFieldRules rf)
     | _ => rpcResultFieldRules rf)
  | some _, some (.str s) => some s
  | _, _ => none

/-- JSON-RPC error-envelope rule (lines 169-171). -/
def rpcErrorRule (rd : List (String × JValue)) : Option String :=
  match lookupKey "jsonrpc" rd, lookupKey "error" rd with
  | some _, some e => some ("Agent error: " ++ pyStr e)
  | _, _ => none

/-- The chat-completion choices rule (lines 190-194) followed by the
verbatim stringification fallback (line 197).  The length, subscript and
membership operations on the choices value are unguarded in the source and
can raise. -/
def choicesRule (rd : List (String × JValue)) : Except String String :=
  match lookupKey "choices" rd with
  | none => .ok (pyStr (.obj rd))
  | some c =>
    match pyLen c with
    | .error e => .error e
    | .ok n =>
      if n > 0 then
        match pyIndex0 c with
        | .error e => .error e
        | .ok choice =>
          match pyInStr "message" choice with
          | .error e => .error e
          | .ok false => .ok (pyStr (.obj rd))
          | .ok true =>
            match pySubscript choice "message" with
            | .error e => .error e
            | .ok msg =>
              match pyInStr "content" msg with
              | .error e => .error e
              | .ok false => .ok (pyStr (.obj rd))
              | .ok true =>
                match pySubscript msg "content" with
                | .error e => .error e
                | .ok v => .ok (pyStr v)
      else .ok (pyStr (.obj rd))

/-- Generic top-level key rules, formats 1 to 5 of the source (lines
173-194), ending in the fallback. -/
def genericRules (rd : List (String × JValue)) : Except String String :=
  match lookupKey "message" rd with
  | some v => .ok (pyStr v)
  | none =>
    match lookupKey "response" rd with
    | some v => .ok (pyStr v)
    | none =>
      match lookupKey "content" rd with
      | some v => .ok (pyStr v)
      | none =>
        match lookupKey "data" rd with
        | some (.obj df) =>
          (match lookupKey "message" df with
           | some v => .ok (pyStr v)
           | none => choicesRule rd)
        | _ => choicesRule rd

/-- _extract_message_from_response (lines 145-197): prioritized extraction
of a display string from an arbitrary response body.  An error value models
a Python exception escaping the method. -/
def extract_message_from_response (response_data : JValue) : Except String String :=
  match response_data with
  | .obj rd =>
    (match rpcResultRules rd with
     | some s => .ok s
     | none =>
       match rpcErrorRule rd with
       | some s => .ok s
       | none => genericRules rd)
  | v => .ok (pyStr v)

/-- Python startswith. -/
def pyStartswith (pre s : String) : Bool := pre.data.isPrefixOf s.data

/-- CustomAgentConfig (custom_agent_client.py lines 8-18).  The endpoint is
optional because the loader can store a missing value for non-custom agent
types; timeout and retries come from Python ints. -/
structure CustomAgentConfig where
  name : String
  platform : String
  endpoint : Option String
  api_key : Option String
  favorite_color : String
  timeout : Int := 30
  retries : Int := 3
  agent_type : String := "custom"

/-- The is_authenticated property (lines 20-23). -/
def CustomAgentConfig.is_authenticated (c : CustomAgentConfig) : Bool :=
  match c.api_key with
  | none => false
  | some k => (k != "") && !(pyStartswith "NONE" k)

/-- CustomAgentResponse (lines 25-33). -/
structure CustomAgentResponse where
  cloud_platform : String
  agent_name : String
  favorite_color : String
  message : String
  success : Bool
  error_message : Option String := none

/-- The HTTP headers built by send_message (lines 87-94), as the ordered
key-value pairs of the Python dict. -/
def buildHeaders (c : CustomAgentConfig) : List (String × String) :=
  let base := [("Content-Type", "application/json"),
               ("User-Agent", "SemanticKernel-Agent2Agent/1.0")]
  if c.is_authenticated then
    base ++ [("Authorization", "Bearer " ++ (c.api_key.getD ""))]
  else base

def hasAuthorizationHeader (hs : List (String × String)) : Bool :=
  hs.any (fun p => p.1 == "Authorization")

/-- The observable outcome of one network attempt inside the retry loop:
an HTTP response (status, parsed JSON body, raw text), or one of the
exception classes caught at lines 124-129. -/
inductive AttemptOutcome where
  | http (status : Nat) (body : JValue) (text : String)
  | timeout
  | clientError (msg : String)
  | unexpected (msg : String)

/-- One iteration of the retry-loop body (lines 100-129): ok carries the
value of the success return, error carries the string stored in
last_error.  Only an HTTP status of exactly 200 enters the success branch,
and a fault raised by the normalizer is caught by the blanket except
clause and recorded as an unexpected error. -/
def attemptResult (c : CustomAgentConfig) : AttemptOutcome → Except String String
  | .http status body text =>
    if status = 200 then
      match extract_message_from_response body with
      | .ok m => .ok m
      | .error e => .error ("Unexpected error: " ++ e)
    else .error ("HTTP " ++ toString status ++ ": " ++ text)
  | .timeout => .error ("Timeout after " ++ toString c.timeout ++ " seconds")
  | .clientError m => .error ("Client error: " ++ m)
  | .unexpected m => .error ("Unexpected error: " ++ m)

/-- The diagnostic string an attempt leaves in last_error (meaningful when
the attempt fails). -/
def attemptDiag (c : CustomAgentConfig) (o : AttemptOutcome) : String :=
  match attemptResult c o with
  | .ok m => m
  | .error e => e

/-- The success return value (lines 113-119). -/
def successResponse (c : CustomAgentConfig) (m : String) : CustomAgentResponse :=
  ⟨c.platform, c.name, c.favorite_color, m, true, none⟩

/-- The exhausted-retries return value (lines 136-143). -/
def failureResponse (c : CustomAgentConfig) (le : Option String) : CustomAgentResponse :=
  ⟨c.platform, c.name, c.favorite_color,
   "Failed to contact custom agent after " ++ toString c.retries ++ " attempts",
   false, le⟩

/-- The retry loop (lines 96-143), instrumented with the number of attempts
made and the total backoff sleep.  fuel counts the remaining iterations of
range(retries); idx is the current 0-based attempt index; the sleep of
2 to the power attempt happens only when a further attempt remains. -/
def sendLoop (c : CustomAgentConfig) (outs : Nat → AttemptOutcome) :
    Nat → Nat → Option String → CustomAgentResponse × Nat × Nat
  | 0, _, le => (failureResponse c le, 0, 0)
  | fuel + 1, idx, _ =>
    match attemptResult c (outs idx) with
    | .ok m => (successResponse c m, 1, 0)
    | .error e =>
      let slp := if fuel = 0 then 0 else 2 ^ idx
      let r := sendLoop c outs fuel (idx + 1) (some e)
      (r.1, r.2.1 + 1, r.2.2 + slp)

/-- send_message (lines 52-143): raises RuntimeError when no session is
open (line 56), otherwise runs the retry loop and always returns a
response, together with the attempts made and the total sleep. -/
def send_message (c : CustomAgentConfig) (sessionOpen : Bool)
    (outs : Nat → AttemptOutcome) :
    Except String (CustomAgentResponse × Nat × Nat) :=
  if sessionOpen then .ok (sendLoop c outs c.retries.toNat 0 none)
  else .error "RuntimeError: CustomAgentClient must be used as async context manager"

/-- Total backoff sleep of k consecutive failed attempts starting at
attempt index idx, each followed by a further attempt. -/
def backoffSum : Nat → Nat → Nat
  | _, 0 => 0
  | idx, k + 1 => 2 ^ idx + backoffSum (idx + 1) k

/-- Truthiness of an optional environment string (Python falsy: missing or
empty). -/
def pyTruthy : Option String → Bool
  | none => false
  | some s => s != ""

def pyUpper (s : String) : String := String.mk (s.data.map Char.toUpper)

def pyLower (s : String) : String := String.mk (s.data.map Char.toLower)

/-- os.getenv with a default. -/
def getenvD (env : String → Option String) (k d : String) : String :=
  (env k).getD d

/-- Digit-string value, none when empty or a non-digit occurs. -/
def digitsVal : List Char → Option Nat
  | [] => none
  | cs =>
    List.foldl
      (fun acc c =>
        match acc with
        | none => none
        | some n => if c.isDigit then some (n * 10 + (c.toNat - 48)) else none)
      (some 0) cs

/-- Surrounding-whitespace strip, as int() applies before parsing. -/
def stripChars (cs : List Char) : List Char :=
  ((cs.dropWhile Char.isWhitespace).reverse.dropWhile Char.isWhitespace).reverse

/-- Python int() on a string: surrounding whitespace, an optional sign and
decimal digits. -/
def pyInt (s : String) : Option Int :=
  match stripChars s.data with
  | [] => none
  | c :: cs =>
    if c = '-' then (digitsVal cs).map (fun n => -(n : Int))
    else if c = '+' then (digitsVal cs).map (fun n => (n : Int))
    else (digitsVal (c :: cs)).map (fun n => (n : Int))

/-- The platform table (lines 212-218), in insertion order. -/
def platforms : List (String × String) :=
  [("AWS", "AWS_AGENT_"), ("Azure", "AZURE_AGENT_"), ("GCP", "GCP_AGENT_"),
   ("Multi-Cloud", "MULTICLOUD_AGENT_"), ("BuiltIn", "BUILTIN_AGENT_")]

/-- Environment key of one numbered agent field. -/
def envKey (pre : String) (num : Nat) (suff : String) : String :=
  pre ++ toString num ++ suff

/-- The agent type of a numbered entry: the _TYPE variable lowered, with
default custom (line 238). -/
def agentTypeAt (env : String → Option String) (pre : String) (num : Nat) : String :=
  pyLower (getenvD env (envKey pre num "_TYPE") "custom")

/-- The config appended for one accepted entry (lines 254-271): the api key
is normalized to missing for unauthenticated sentinels, and builtin agents
get an empty endpoint. -/
def mkLoadedConfig (env : String → Option String) (timeout retries : Int)
    (platformName pre : String) (num : Nat) : CustomAgentConfig :=
  let api_key := env (envKey pre num "_API_KEY")
  let agent_type := agentTypeAt env pre num
  CustomAgentConfig.mk
    ((env (envKey pre num "_NAME")).getD "")
    platformName
    (if agent_type == "builtin" then some "" else env (envKey pre num "_ENDPOINT"))
    (if !(pyTruthy api_key)
        || (["NONE", "NULL", ""].contains (pyUpper (api_key.getD "")))
        || pyStartswith "your-" (api_key.getD "")
     then none else api_key)
    ((env (envKey pre num "_COLOR")).getD "")
    timeout retries agent_type

/-- The required-fields test (lines 240-246): name and color, plus the
endpoint for custom agents, all truthy. -/
def requiredFieldsOk (env : String → Option String) (pre : String) (num : Nat) : Bool :=
  ([env (envKey pre num "_NAME"), env (envKey pre num "_COLOR")] ++
    (if agentTypeAt env pre num == "custom" then [env (envKey pre num "_ENDPOINT")] else [])).all
    pyTruthy

/-- The placeholder-endpoint test (lines 249-250). -/
def isPlaceholderEntry (env : String → Option String) (pre : String) (num : Nat) : Bool :=
  agentTypeAt env pre num == "custom" && pyTruthy (env (envKey pre num "_ENDPOINT"))
    && pyStartswith "https://your-" ((env (envKey pre num "_ENDPOINT")).getD "")

/-- The numbered-agent loop of load_custom_agents (lines 226-273) for one
platform, with fuel bounding the scan.  The loop stops at the first entry
whose required fields are not all truthy, and skips placeholder endpoints. -/
def loadPlatformAgents (env : String → Option String) (timeout retries : Int)
    (platformName pre : String) : Nat → Nat → List CustomAgentConfig
  | 0, _ => []
  | fuel + 1, num =>
    if !(requiredFieldsOk env pre num) then []
    else if isPlaceholderEntry env pre num then
      loadPlatformAgents env timeout retries platformName pre fuel (num + 1)
    else
      mkLoadedConfig env timeout retries platformName pre num ::
        loadPlatformAgents env timeout retries platformName pre fuel (num + 1)

/-- load_custom_agents (lines 202-275).  fuel bounds each platform scan;
the error value models the ValueError raised by int() on malformed timeout
or retry settings. -/
def load_custom_agents (env : String → Option String) (fuel : Nat) :
    Except String (List CustomAgentConfig) :=
  match pyInt (getenvD env "CUSTOM_AGENT_TIMEOUT" "30"),
        pyInt (getenvD env "CUSTOM_AGENT_RETRIES" "3") with
  | some timeout, some retries =>
    .ok (platforms.foldl
      (fun acc p => acc ++ loadPlatformAgents env timeout retries p.1 p.2 fuel 1) [])
  | _, _ => .error "ValueError: invalid literal for int"

/-- AgentResponse (main.py lines 23-29). -/
structure AgentResponse where
  cloud_platform : String
  agent_name : String
  favorite_color : String
  message : String

/-- One workflow agent as seen by execute_workflow: its identity and the
outcome of its process_task call, where an error is an exception escaping
that call. -/
structure WorkflowAgent where
  cloud_platform : String
  agent_name : String
  favorite_color : String
  task_result : Except String AgentResponse

/-- The per-agent step of execute_workflow (main.py lines 250-271): append
the agents own response, or the synthesized error response naming the agent
when its call raises. -/
def processAgentStep (a : WorkflowAgent) : AgentResponse :=
  match a.task_result with
  | .ok r => r
  | .error e =>
    ⟨a.cloud_platform, a.agent_name, a.favorite_color,
     "Agent " ++ a.agent_name ++ " encountered an error: " ++ e⟩

/-- Phase 1 of execute_workflow (main.py lines 229-271): visit the agents
in input order, never aborting on an individual failure. -/
def execute_workflow : List WorkflowAgent → List AgentResponse
  | [] => []
  | a :: rest => processAgentStep a :: execute_workflow rest

/-! ### Concrete instances used by witnesses -/

def cW3 : CustomAgentConfig :=
  CustomAgentConfig.mk "Gamma" "Azure" (some "https://example.com/c") none "green" 30 3 "custom"

def outsW3 : Nat → AttemptOutcome := fun n =>
  if n = 0 then AttemptOutcome.clientError "refused"
  else AttemptOutcome.http 200 (JValue.obj [("message", JValue.str "hi")]) "ok"

def cW4 : CustomAgentConfig :=
  CustomAgentConfig.mk "Epsilon" "AWS" (some "https://example.com/e") none "orange" 30 3 "custom"

def outsW4 : Nat → AttemptOutcome := fun n =>
  if n = 0 then AttemptOutcome.http 500 (JValue.obj []) "ISE"
  else AttemptOutcome.http 200 (JValue.obj [("message", JValue.str "hi")]) "ok"

def cW5 : CustomAgentConfig :=
  CustomAgentConfig.mk "Delta" "GCP" (some "https://example.com/d") none "blue" 30 2 "custom"

def cW6 : CustomAgentConfig :=
  CustomAgentConfig.mk "Zeta" "AWS" (some "https://example.com/z") none "violet" 30 3 "custom"

def rdW7 : List (String × JValue) :=
  [("jsonrpc", JValue.str "2.0"),
   ("result", JValue.obj [("parts", JValue.arr [JValue.obj [("text", JValue.str "hello")]])]),
   ("message", JValue.str "other")]

def aW1 : WorkflowAgent :=
  WorkflowAgent.mk "AWS" "Alpha" "red" (Except.ok (AgentResponse.mk "AWS" "Alpha" "red" "done A"))

def aW2 : WorkflowAgent :=
  WorkflowAgent.mk "Azure" "Beta" "blue" (Except.error "boom")

def aW3 : WorkflowAgent :=
  WorkflowAgent.mk "GCP" "Gamma" "green" (Except.ok (AgentResponse.mk "GCP" "Gamma" "green" "done C"))

def envW9 : String → Option String := fun k =>
  if k = "AWS_AGENT_1_NAME" then some "Alpha"
  else if k = "AWS_AGENT_1_ENDPOINT" then some "https://example.com/agent"
  else if k = "AWS_AGENT_1_COLOR" then some "red"
  else none

def cfgW9 : CustomAgentConfig :=
  CustomAgentConfig.mk "Alpha" "AWS" (some "https://example.com/agent") none "red" 30 3 "custom"

def rdW10 : List (String × JValue) :=
  [("result", JValue.obj [("message", JValue.str "hi")])]

/-! ### Helper lemmas about the retry loop -/

lemma sendLoop_succeeds (c : CustomAgentConfig) (outs : Nat → AttemptOutcome) :
    ∀ (k fuel idx : Nat) (le : Option String) (m : String),
      k < fuel →
      (∀ j, j < k → ∃ e, attemptResult c (outs (idx + j)) = Except.error e) →
      attemptResult c (outs (idx + k)) = Except.ok m →
      sendLoop c outs fuel idx le = (successResponse c m, k + 1, backoffSum idx k) := by
  intro k
  induction k with
  | zero =>
    intro fuel idx le m hk _ hok
    obtain ⟨fuel, rfl⟩ : ∃ f, fuel = f + 1 := ⟨fuel - 1, by omega⟩
    rw [Nat.add_zero] at hok
    simp [sendLoop, hok, backoffSum]
  | succ k ih =>
    intro fuel idx le m hk hfail hok
    obtain ⟨fuel, rfl⟩ : ∃ f, fuel = f + 1 := ⟨fuel - 1, by omega⟩
    obtain ⟨e0, he0⟩ := hfail 0 (Nat.succ_pos k)
    rw [Nat.add_zero] at he0
    have hrec := ih fuel (idx + 1) (some e0) m (by omega)
      (fun j hj => by
        obtain ⟨e, he⟩ := hfail (j + 1) (by omega)
        exact ⟨e, by rw [show idx + 1 + j = idx + (j + 1) from by omega]; exact he⟩)
      (by rw [show idx + 1 + k = idx + (k + 1) from by omega]; exact hok)
    have hf : ¬ fuel = 0 := by omega
    simp only [sendLoop, he0, hrec, hf, if_false, backoffSum]
    exact Prod.ext rfl (Prod.ext rfl (Nat.add_comm _ _))

lemma sendLoop_zero (c : CustomAgentConfig) (outs : Nat → AttemptOutcome)
    (idx : Nat) (le : Option String) :
    sendLoop c outs 0 idx le = (failureResponse c le, 0, 0) := rfl

lemma sendLoop_succ_err (c : CustomAgentConfig) (outs : Nat → AttemptOutcome)
    (fuel idx : Nat) (le : Option String) (e : String)
    (h : attemptResult c (outs idx) = Except.error e) :
    sendLoop c outs (fuel + 1) idx le =
      ((sendLoop c outs fuel (idx + 1) (some e)).1,
       (sendLoop c outs fuel (idx + 1) (some e)).2.1 + 1,
       (sendLoop c outs fuel (idx + 1) (some e)).2.2 + (if fuel = 0 then 0 else 2 ^ idx)) := by
  simp only [sendLoop, h]

lemma sendLoop_exhausts (c : CustomAgentConfig) (outs : Nat → AttemptOutcome) :
    ∀ (fuel idx : Nat) (le : Option String) (e : String),
      0 < fuel →
      (∀ j, j + 1 < fuel → ∃ e2, attemptResult c (outs (idx + j)) = Except.error e2) →
      attemptResult c (outs (idx + (fuel - 1))) = Except.error e →
      sendLoop c outs fuel idx le =
        (failureResponse c (some e), fuel, backoffSum idx (fuel - 1)) := by
  intro fuel
  induction fuel with
  | zero => intro idx le e h; omega
  | succ f ih =>
    intro idx le e _ hfail hlast
    by_cases hf : f = 0
    · subst hf
      rw [Nat.add_zero] at hlast
      rw [sendLoop_succ_err c outs 0 idx le e hlast, sendLoop_zero]
      simp [backoffSum]
    · obtain ⟨e0, he0⟩ := hfail 0 (by omega)
      rw [Nat.add_zero] at he0
      have hrec := ih (idx + 1) (some e0) e (by omega)
        (fun j hj => by
          obtain ⟨e2, he2⟩ := hfail (j + 1) (by omega)
          exact ⟨e2, by rw [show idx + 1 + j = idx + (j + 1) from by omega]; exact he2⟩)
        (by rw [show idx + 1 + (f - 1) = idx + (f + 1 - 1) from by omega]; exact hlast)
      rw [sendLoop_succ_err c outs f idx le e0 he0, hrec]
      have h1 : (if f = 0 then 0 else 2 ^ idx) = 2 ^ idx := by simp [hf]
      have h2 : backoffSum idx (f + 1 - 1) = 2 ^ idx + backoffSum (idx + 1) (f - 1) := by
        obtain ⟨f2, rfl⟩ : ∃ f2, f = f2 + 1 := ⟨f - 1, by omega⟩
        simp [backoffSum]
      rw [h1, h2]
      exact Prod.ext rfl (Prod.ext rfl (Nat.add_comm _ _))

lemma sendLoop_fields (c : CustomAgentConfig) (outs : Nat → AttemptOutcome) :
    ∀ (fuel idx : Nat) (le : Option String),
      ((sendLoop c outs fuel idx le).1).cloud_platform = c.platform ∧
      ((sendLoop c outs fuel idx le).1).agent_name = c.name ∧
      ((sendLoop c outs fuel idx le).1).favorite_color = c.favorite_color ∧
      (((sendLoop c outs fuel idx le).1).success = true →
        ((sendLoop c outs fuel idx le).1).error_message = none) := by
  intro fuel
  induction fuel with
  | zero => intro idx le; simp [sendLoop, failureResponse]
  | succ fuel ih =>
    intro idx le
    cases h : attemptResult c (outs idx) with
    | ok m => simp [sendLoop, h, successResponse]
    | error e => simpa [sendLoop, h] using ih (idx + 1) (some e)

lemma sendLoop_error_iff (c : CustomAgentConfig) (outs : Nat → AttemptOutcome) :
    ∀ (fuel idx : Nat) (le : Option String), 0 < fuel →
      (((sendLoop c outs fuel idx le).1).error_message.isSome = true ↔
        ((sendLoop c outs fuel idx le).1).success = false) := by
  intro fuel
  induction fuel with
  | zero => intro idx le h; omega
  | succ fuel ih =>
    intro idx le _
    cases h : attemptResult c (outs idx) with
    | ok m => simp [sendLoop, h, successResponse]
    | error e =>
      cases fuel with
      | zero => simp [sendLoop, h, failureResponse]
      | succ f => simpa [sendLoop, h] using ih (idx + 1) (some e) (by omega)

lemma backoffSum_eq (k : Nat) : ∀ idx, backoffSum idx k = ∑ i in Finset.range k, 2 ^ (idx + i) := by
  induction k with
  | zero => intro idx; simp [backoffSum]
  | succ k ih =>
    intro idx
    have hs : ∑ i in Finset.range k, 2 ^ (idx + 1 + i) =
        ∑ i in Finset.range k, 2 ^ (idx + (i + 1)) :=
      Finset.sum_congr rfl (fun i _ => by rw [show idx + 1 + i = idx + (i + 1) from by omega])
    rw [backoffSum, ih (idx + 1), hs, Finset.sum_range_succ']
    simp [Nat.add_comm]

lemma attemptResult_error_of_not2xx (c : CustomAgentConfig) (o : AttemptOutcome)
    (h : ∀ s b t, o = AttemptOutcome.http s b t → s < 200 ∨ 300 ≤ s) :
    attemptResult c o = Except.error (attemptDiag c o) := by
  cases o with
  | http s b t =>
    have hs : ¬ s = 200 := by rcases h s b t rfl with h2 | h2 <;> omega
    simp [attemptResult, attemptDiag, hs]
  | timeout => simp [attemptResult, attemptDiag]
  | clientError m => simp [attemptResult, attemptDiag]
  | unexpected m => simp [attemptResult, attemptDiag]

/-! ### Helper lemmas about headers and the loader -/

lemma hasAuth_eq (c : CustomAgentConfig) :
    hasAuthorizationHeader (buildHeaders c) = c.is_authenticated := by
  by_cases h : c.is_authenticated = true
  · simp only [buildHeaders, h, if_true]; rfl
  · rw [Bool.not_eq_true] at h
    simp only [buildHeaders, h, Bool.false_eq_true, if_false]; rfl

lemma pyTruthy_iff (o : Option String) :
    pyTruthy o = true ↔ ∃ s, o = some s ∧ s ≠ "" := by
  cases o with
  | none => simp [pyTruthy]
  | some s => simp [pyTruthy]

lemma mem_foldl_append {α β : Type} (f : β → List α) (l : List β) :
    ∀ (acc : List α) (x : α),
      x ∈ l.foldl (fun a b => a ++ f b) acc → x ∈ acc ∨ ∃ b ∈ l, x ∈ f b := by
  induction l with
  | nil => intro acc x h; exact Or.inl h
  | cons b bs ih =>
    intro acc x h
    rcases ih (acc ++ f b) x h with h2 | h2
    · rcases List.mem_append.mp h2 with h3 | h3
      · exact Or.inl h3
      · exact Or.inr ⟨b, List.mem_cons_self b bs, h3⟩
    · obtain ⟨b2, hb2, hx⟩ := h2
      exact Or.inr ⟨b2, List.mem_cons_of_mem b hb2, hx⟩

lemma loadPlatformAgents_endpoint (env : String → Option String) (timeout retries : Int)
    (platformName pre : String) :
    ∀ (fuel num : Nat) (cfg : CustomAgentConfig),
      cfg ∈ loadPlatformAgents env timeout retries platformName pre fuel num →
      cfg.agent_type = "custom" → ∃ s, cfg.endpoint = some s ∧ s ≠ "" := by
  intro fuel
  induction fuel with
  | zero => intro num cfg h; simp [loadPlatformAgents] at h
  | succ fuel ih =>
    intro num cfg h htype
    rw [loadPlatformAgents] at h
    cases hreq : requiredFieldsOk env pre num with
    | false => simp [hreq] at h
    | true =>
      simp only [hreq, Bool.not_true, Bool.false_eq_true, if_false] at h
      cases hph : isPlaceholderEntry env pre num with
      | true =>
        simp only [hph, if_true] at h
        exact ih (num + 1) cfg h htype
      | false =>
        simp only [hph, Bool.false_eq_true, if_false] at h
        rcases List.mem_cons.mp h with h2 | h2
        · subst h2
          have hat : agentTypeAt env pre num = "custom" := by
            simpa [mkLoadedConfig] using htype
          have hend : pyTruthy (env (envKey pre num "_ENDPOINT")) = true := by
            have hall := hreq
            simp only [requiredFieldsOk, hat, beq_self_eq_true, if_true,
              List.all_append, List.all_cons, List.all_nil, Bool.and_eq_true] at hall
            tauto
          simp only [mkLoadedConfig, hat]
          have hne : ("custom" == "builtin") = false := by rfl
          simp only [hne, Bool.false_eq_true, if_false]
          exact (pyTruthy_iff _).mp hend
        · exact ih (num + 1) cfg h2 htype

/-! ### Claim theorems -/

/-- Claim C1: the spec states the Response Normalizer is total and never
raises, but the code violates this.  On a body whose choices key holds the
number 5, the unguarded len call of the choices rule raises a TypeError,
modelled here as an error value instead of a returned string. -/
theorem C1_normalizer_raises_on_choices_number :
    extract_message_from_response (JValue.obj [("choices", JValue.num 5)]) =
      Except.error "TypeError: object of type int has no len" := rfl

/-- Claim C2 (amended): the request built by send_message carries an
Authorization header iff the api key is present, non-empty, and does not
start with NONE; otherwise no Authorization header is sent at all. -/
theorem C2_auth_header_iff (c : CustomAgentConfig) :
    hasAuthorizationHeader (buildHeaders c) = true ↔
      ∃ k, c.api_key = some k ∧ k ≠ "" ∧ pyStartswith "NONE" k = false := by
  rw [hasAuth_eq]
  cases hc : c.api_key with
  | none => simp [CustomAgentConfig.is_authenticated, hc]
  | some k =>
    simp [CustomAgentConfig.is_authenticated, hc, Bool.and_eq_true, bne_iff_ne,
      Bool.not_eq_true']

theorem C2_auth_header_iff_witness :
    hasAuthorizationHeader (buildHeaders (CustomAgentConfig.mk "Beta" "GCP"
      (some "https://example.com/b") (some "tok-1") "blue" 30 3 "custom")) = true :=
  (C2_auth_header_iff _).mpr ⟨"tok-1", rfl, by decide, rfl⟩

/-- Claim C2 counterexample: a config whose credential is the sentinel NULL
still gets an Authorization header from send_message, contradicting the
claim that the sentinel NULL never yields one. -/
theorem C2_counterexample_null_credential :
    buildHeaders (CustomAgentConfig.mk "Alpha" "AWS" (some "https://example.com/a")
        (some "NULL") "red" 30 3 "custom") =
      [("Content-Type", "application/json"),
       ("User-Agent", "SemanticKernel-Agent2Agent/1.0"),
       ("Authorization", "Bearer NULL")] := rfl

/-- Claim C7: for a body that satisfies both the RPC parts rule and a
generic top-level key rule, the normalizer returns the RPC rule text: the
earlier, more specific rule wins. -/
theorem C7_rule1_precedes_rule5 (rd rf pf : List (String × JValue))
    (rest : List JValue) (tv : JValue)
    (hrpc : (lookupKey "jsonrpc" rd).isSome = true)
    (hres : lookupKey "result" rd = some (JValue.obj rf))
    (hparts : lookupKey "parts" rf = some (JValue.arr (JValue.obj pf :: rest)))
    (htext : lookupKey "text" pf = some tv)
    (hr5 : (lookupKey "message" rd).isSome = true ∨ (lookupKey "response" rd).isSome = true ∨
      (lookupKey "content" rd).isSome = true) :
    extract_message_from_response (JValue.obj rd) = Except.ok (pyStr tv) := by
  obtain ⟨jv, hjv⟩ := Option.isSome_iff_exists.mp hrpc
  have h1 : rpcResultRules rd = some (pyStr tv) := by
    simp [rpcResultRules, hjv, hres, hparts, htext]
  simp [extract_message_from_response, h1]

theorem C7_rule1_precedes_rule5_witness :
    extract_message_from_response (JValue.obj rdW7) = Except.ok "hello" :=
  C7_rule1_precedes_rule5 rdW7
    [("parts", JValue.arr [JValue.obj [("text", JValue.str "hello")]])]
    [("text", JValue.str "hello")] [] (JValue.str "hello")
    rfl rfl rfl rfl (Or.inl rfl)

/-- Claim C10: the RPC envelope rules fire only when a jsonrpc key is
present: a dict body with a result or error key but no jsonrpc key is
handled entirely by the generic top-level key rules and the fallback. -/
theorem C10_rpc_rules_need_jsonrpc (rd : List (String × JValue))
    (hre : (lookupKey "result" rd).isSome = true ∨ (lookupKey "error" rd).isSome = true)
    (hj : lookupKey "jsonrpc" rd = none) :
    extract_message_from_response (JValue.obj rd) = genericRules rd := by
  have h1 : rpcResultRules rd = none := by simp [rpcResultRules, hj]
  have h2 : rpcErrorRule rd = none := by simp [rpcErrorRule, hj]
  simp [extract_message_from_response, h1, h2]

theorem C10_rpc_rules_need_jsonrpc_witness :
    lookupKey "jsonrpc" rdW10 = none ∧
    extract_message_from_response (JValue.obj rdW10) = genericRules rdW10 :=
  ⟨rfl, C10_rpc_rules_need_jsonrpc rdW10 (Or.inl rfl) rfl⟩

/-- Claim C8: with three agents where the second call throws, the workflow
yields three results in input order, the failing slot filled with a failure
response naming that agent, and the other agents carrying their own
outcomes. -/
theorem C8_batch_isolation (a1 a2 a3 : WorkflowAgent) (e : String)
    (h2 : a2.task_result = Except.error e) :
    (execute_workflow [a1, a2, a3]).length = 3 ∧
    execute_workflow [a1, a2, a3] =
      [processAgentStep a1, processAgentStep a2, processAgentStep a3] ∧
    processAgentStep a2 =
      AgentResponse.mk a2.cloud_platform a2.agent_name a2.favorite_color
        ("Agent " ++ a2.agent_name ++ " encountered an error: " ++ e) ∧
    (∀ r, a1.task_result = Except.ok r → processAgentStep a1 = r) ∧
    (∀ r, a3.task_result = Except.ok r → processAgentStep a3 = r) := by
  refine ⟨rfl, rfl, ?_, ?_, ?_⟩
  · simp [processAgentStep, h2]
  · intro r hr; simp [processAgentStep, hr]
  · intro r hr; simp [processAgentStep, hr]

theorem C8_batch_isolation_witness :
    (execute_workflow [aW1, aW2, aW3]).length = 3 ∧
    execute_workflow [aW1, aW2, aW3] =
      [processAgentStep aW1, processAgentStep aW2, processAgentStep aW3] ∧
    processAgentStep aW2 =
      AgentResponse.mk "Azure" "Beta" "blue"
        ("Agent " ++ "Beta" ++ " encountered an error: " ++ "boom") ∧
    (∀ r, aW1.task_result = Except.ok r → processAgentStep aW1 = r) ∧
    (∀ r, aW3.task_result = Except.ok r → processAgentStep aW3 = r) :=
  C8_batch_isolation aW1 aW2 aW3 "boom" rfl

/-- Claim C3 (amended): on the first attempt whose HTTP status is exactly
200 and whose parsed body the normalizer extracts without fault, after k
earlier failed attempts, send_message stops retrying at attempt k+1 and
returns success with message equal to the normalizer output. -/
theorem C3_stops_on_first_200 (c : CustomAgentConfig) (outs : Nat → AttemptOutcome)
    (k : Nat) (body : JValue) (txt m : String)
    (hk : k < c.retries.toNat)
    (hfail : ∀ j, j < k → ∃ e, attemptResult c (outs j) = Except.error e)
    (h200 : outs k = AttemptOutcome.http 200 body txt)
    (hex : extract_message_from_response body = Except.ok m) :
    send_message c true outs =
      Except.ok (successResponse c m, k + 1, backoffSum 0 k) ∧
    successResponse c m =
      CustomAgentResponse.mk c.platform c.name c.favorite_color m true none := by
  refine ⟨?_, rfl⟩
  have hok : attemptResult c (outs (0 + k)) = Except.ok m := by
    rw [Nat.zero_add, h200]; simp [attemptResult, hex]
  have hrun := sendLoop_succeeds c outs k c.retries.toNat 0 none m hk
    (fun j hj => by rw [Nat.zero_add]; exact hfail j hj) hok
  have h0 : send_message c true outs =
      Except.ok (sendLoop c outs c.retries.toNat 0 none) := rfl
  rw [h0, hrun]

theorem C3_stops_on_first_200_witness :
    send_message cW3 true outsW3 =
      Except.ok (successResponse cW3 "hi", 2, backoffSum 0 1) ∧
    successResponse cW3 "hi" =
      CustomAgentResponse.mk "Azure" "Gamma" "green" "hi" true none :=
  C3_stops_on_first_200 cW3 outsW3 1 (JValue.obj [("message", JValue.str "hi")]) "ok" "hi"
    (by decide)
    (fun j hj => by
      have hj0 : j = 0 := by omega
      subst hj0
      exact ⟨"Client error: refused", rfl⟩)
    rfl rfl

/-- Claim C3 counterexample: HTTP 204 is 2xx, yet send_message does not
stop there with success; with both attempts returning 204 the call retries
and fails after exhausting two attempts. -/
theorem C3_counterexample_204_not_success :
    send_message (CustomAgentConfig.mk "Alpha" "AWS" (some "https://example.com/a")
        none "red" 30 2 "custom") true
      (fun _ => AttemptOutcome.http 204 (JValue.obj []) "No Content") =
      Except.ok (CustomAgentResponse.mk "AWS" "Alpha" "red"
        "Failed to contact custom agent after 2 attempts" false
        (some "HTTP 204: No Content"), 2, 1) := rfl

/-- Claim C4 (amended): if the endpoint returns HTTP 200 on the Nth attempt
(1 ≤ N ≤ maxAttempts) with a body the normalizer extracts without fault,
and non-2xx statuses on all earlier attempts, then send_message makes
exactly N attempts, returns success, and sleeps the sum of 2 to the i for
i in the range below N-1. -/
theorem C4_success_on_nth_attempt (c : CustomAgentConfig) (outs : Nat → AttemptOutcome)
    (N : Nat) (body : JValue) (txt m : String)
    (hN1 : 1 ≤ N) (hN2 : N ≤ c.retries.toNat)
    (hfail : ∀ j, j + 1 < N →
      ∃ s b t, outs j = AttemptOutcome.http s b t ∧ (s < 200 ∨ 300 ≤ s))
    (h200 : outs (N - 1) = AttemptOutcome.http 200 body txt)
    (hex : extract_message_from_response body = Except.ok m) :
    ∃ r, send_message c true outs =
      Except.ok (r, N, ∑ i in Finset.range (N - 1), 2 ^ i) ∧
      r.success = true ∧ r.message = m := by
  have hok : attemptResult c (outs (0 + (N - 1))) = Except.ok m := by
    rw [Nat.zero_add, h200]; simp [attemptResult, hex]
  have hfail2 : ∀ j, j < N - 1 → ∃ e, attemptResult c (outs (0 + j)) = Except.error e := by
    intro j hj
    obtain ⟨s, b, t, ho, hs⟩ := hfail j (by omega)
    refine ⟨"HTTP " ++ toString s ++ ": " ++ t, ?_⟩
    rw [Nat.zero_add, ho]
    have hs2 : ¬ s = 200 := by omega
    simp [attemptResult, hs2]
  have hrun := sendLoop_succeeds c outs (N - 1) c.retries.toNat 0 none m (by omega)
    hfail2 hok
  have h0 : send_message c true outs =
      Except.ok (sendLoop c outs c.retries.toNat 0 none) := rfl
  have hN : (N - 1) + 1 = N := by omega
  have hbs : backoffSum 0 (N - 1) = ∑ i in Finset.range (N - 1), 2 ^ i := by
    rw [backoffSum_eq]; simp
  refine ⟨successResponse c m, ?_, rfl, rfl⟩
  rw [h0, hrun, hN, hbs]

theorem C4_success_on_nth_attempt_witness :
    ∃ r, send_message cW4 true outsW4 =
      Except.ok (r, 2, ∑ i in Finset.range (2 - 1), 2 ^ i) ∧
      r.success = true ∧ r.message = "hi" :=
  C4_success_on_nth_attempt cW4 outsW4 2 (JValue.obj [("message", JValue.str "hi")]) "ok" "hi"
    (by decide) (by decide)
    (fun j hj => by
      have hj0 : j = 0 := by omega
      subst hj0
      exact ⟨500, JValue.obj [], "ISE", rfl, Or.inr (by omega)⟩)
    rfl rfl

/-- Claim C4 counterexample: the endpoint returns HTTP 200 on attempt 1 of
1, but the body makes the normalizer raise; the fault is caught by the
blanket except clause and consumes the attempt, so the call returns failure
instead of the claimed success. -/
theorem C4_counterexample_choices_body :
    send_message (CustomAgentConfig.mk "Alpha" "AWS" (some "https://example.com/a")
        none "red" 30 1 "custom") true
      (fun _ => AttemptOutcome.http 200 (JValue.obj [("choices", JValue.num 5)]) "ok") =
      Except.ok (CustomAgentResponse.mk "AWS" "Alpha" "red"
        "Failed to contact custom agent after 1 attempts" false
        (some "Unexpected error: TypeError: object of type int has no len"), 1, 0) := rfl

/-- Claim C5: with positive maxAttempts and no 2xx status on any attempt,
send_message makes exactly maxAttempts attempts and returns failure with
the fixed summary naming the attempt count and the final attempts
diagnostic as lastError; moreover for every outcome sequence the error
field is present iff success is false. -/
theorem C5_exhausted_retries (c : CustomAgentConfig) (outs : Nat → AttemptOutcome)
    (hpos : 0 < c.retries)
    (hno2xx : ∀ j, j < c.retries.toNat →
      ∀ s b t, outs j = AttemptOutcome.http s b t → s < 200 ∨ 300 ≤ s) :
    (∃ slp, send_message c true outs = Except.ok
      (failureResponse c (some (attemptDiag c (outs (c.retries.toNat - 1)))),
       c.retries.toNat, slp)) ∧
    failureResponse c (some (attemptDiag c (outs (c.retries.toNat - 1)))) =
      CustomAgentResponse.mk c.platform c.name c.favorite_color
        ("Failed to contact custom agent after " ++ toString c.retries ++ " attempts")
        false (some (attemptDiag c (outs (c.retries.toNat - 1)))) ∧
    (∀ outs2 r n slp, send_message c true outs2 = Except.ok (r, n, slp) →
      (r.error_message.isSome = true ↔ r.success = false)) := by
  have hfuel : 0 < c.retries.toNat := by omega
  refine ⟨?_, rfl, ?_⟩
  · have hlast : attemptResult c (outs (0 + (c.retries.toNat - 1))) =
        Except.error (attemptDiag c (outs (c.retries.toNat - 1))) := by
      rw [Nat.zero_add]
      exact attemptResult_error_of_not2xx c _ (hno2xx _ (by omega))
    have herrs : ∀ j, j + 1 < c.retries.toNat →
        ∃ e2, attemptResult c (outs (0 + j)) = Except.error e2 := by
      intro j hj
      rw [Nat.zero_add]
      exact ⟨_, attemptResult_error_of_not2xx c _ (hno2xx _ (by omega))⟩
    have hrun := sendLoop_exhausts c outs c.retries.toNat 0 none _ hfuel herrs hlast
    refine ⟨backoffSum 0 (c.retries.toNat - 1), ?_⟩
    have h0 : send_message c true outs =
        Except.ok (sendLoop c outs c.retries.toNat 0 none) := rfl
    rw [h0, hrun]
  · intro outs2 r n slp h
    have h0 : send_message c true outs2 =
        Except.ok (sendLoop c outs2 c.retries.toNat 0 none) := rfl
    rw [h0] at h
    injection h with h1
    have hr : r = (sendLoop c outs2 c.retries.toNat 0 none).1 := by rw [h1]
    rw [hr]
    exact sendLoop_error_iff c outs2 c.retries.toNat 0 none hfuel

theorem C5_exhausted_retries_witness :
    (∃ slp, send_message cW5 true (fun _ => AttemptOutcome.timeout) = Except.ok
      (failureResponse cW5 (some (attemptDiag cW5 AttemptOutcome.timeout)), 2, slp)) ∧
    failureResponse cW5 (some (attemptDiag cW5 AttemptOutcome.timeout)) =
      CustomAgentResponse.mk "GCP" "Delta" "blue"
        ("Failed to contact custom agent after " ++ toString cW5.retries ++ " attempts")
        false (some (attemptDiag cW5 AttemptOutcome.timeout)) ∧
    (∀ outs2 r n slp, send_message cW5 true outs2 = Except.ok (r, n, slp) →
      (r.error_message.isSome = true ↔ r.success = false)) :=
  C5_exhausted_retries cW5 (fun _ => AttemptOutcome.timeout) (by decide)
    (fun j hj s b t ht => nomatch ht)

/-- Claim C6 (amended): whenever a session is open, send_message returns a
well-formed response on every outcome sequence and never raises: the result
echoes the config identity and a success carries no error detail.  The only
raising path is the RuntimeError misuse guard when no session is open. -/
theorem C6_invoke_never_raises (c : CustomAgentConfig) (outs : Nat → AttemptOutcome) :
    ∃ r n slp, send_message c true outs = Except.ok (r, n, slp) ∧
      r.cloud_platform = c.platform ∧ r.agent_name = c.name ∧
      r.favorite_color = c.favorite_color ∧
      (r.success = true → r.error_message = none) := by
  obtain ⟨h1, h2, h3, h4⟩ := sendLoop_fields c outs c.retries.toNat 0 none
  exact ⟨_, _, _, rfl, h1, h2, h3, h4⟩

theorem C6_invoke_never_raises_witness :
    ∃ r n slp, send_message cW6 true (fun _ => AttemptOutcome.timeout) =
      Except.ok (r, n, slp) ∧
      r.cloud_platform = "AWS" ∧ r.agent_name = "Zeta" ∧
      r.favorite_color = "violet" ∧
      (r.success = true → r.error_message = none) :=
  C6_invoke_never_raises cW6 (fun _ => AttemptOutcome.timeout)

/-- Claim C6 counterexample: without an open session send_message raises a
RuntimeError instead of returning a result, so not every execution path of
send_message returns a result value. -/
theorem C6_counterexample_no_session :
    send_message (CustomAgentConfig.mk "Alpha" "AWS" (some "https://example.com/a")
        none "red" 30 3 "custom") false (fun _ => AttemptOutcome.timeout) =
      Except.error "RuntimeError: CustomAgentClient must be used as async context manager" := rfl

/-- Claim C9: every config produced by load_custom_agents whose agent type
is custom has a present, non-empty endpoint; an entry with a missing or
empty endpoint is rejected at load time and never becomes a config. -/
theorem C9_custom_configs_have_endpoint (env : String → Option String) (fuel : Nat)
    (l : List CustomAgentConfig) (hl : load_custom_agents env fuel = Except.ok l) :
    ∀ cfg ∈ l, cfg.agent_type = "custom" → ∃ s, cfg.endpoint = some s ∧ s ≠ "" := by
  intro cfg hc htype
  rcases h1 : pyInt (getenvD env "CUSTOM_AGENT_TIMEOUT" "30") with _ | timeout <;>
    rcases h2 : pyInt (getenvD env "CUSTOM_AGENT_RETRIES" "3") with _ | retries <;>
    simp only [load_custom_agents, h1, h2] at hl
  · exact absurd hl (by simp)
  · exact absurd hl (by simp)
  · exact absurd hl (by simp)
  · injection hl with hl2
    subst hl2
    rcases mem_foldl_append
        (fun p => loadPlatformAgents env timeout retries p.1 p.2 fuel 1)
        platforms [] cfg hc with h3 | h3
    · simp at h3
    · obtain ⟨p, hp, hcfg⟩ := h3
      exact loadPlatformAgents_endpoint env timeout retries p.1 p.2 fuel 1 cfg hcfg htype

theorem C9_custom_configs_have_endpoint_witness :
    load_custom_agents envW9 1 = Except.ok [cfgW9] ∧
    ∃ s, cfgW9.endpoint = some s ∧ s ≠ "" :=
  ⟨rfl, C9_custom_configs_have_endpoint envW9 1 [cfgW9] rfl cfgW9
    (List.mem_singleton.mpr rfl) rfl⟩

end A2A
